import Mathlib

/-!
Shallow embedding of the BigQuery connector core of `pkg/bigquery/db.go`
(table-materialization reconciliation engine): qualified-name resolution,
dataset provisioning with an existence cache, metadata drift detection,
drop-on-mismatch, metadata reconciliation and the error translator.

Network effects (metadata fetch, delete, create, update) are modelled by
explicit world/oracle records supplying each call's outcome, and each
operation returns, besides its Go result, a count of the network calls it
issued, so that claims about side effects are statable.
-/

deriving instance DecidableEq for Except

namespace Bruin

/-- Accumulator loop of `stringsSplitDot`: emit the segment gathered so far
at each dot, keep the rest of the current segment otherwise. -/
def stringsSplitDotAux : List Char → List Char → List String
  | [], acc => [String.mk acc]
  | c :: rest, acc =>
    if c == '.' then String.mk acc :: stringsSplitDotAux rest []
    else stringsSplitDotAux rest (acc ++ [c])

/-- `strings.Split(s, ".")`: the dot-separated segments of `s`, preserving
empty segments; the empty string yields `[""]`. Structurally recursive so
that concrete instances evaluate in the kernel. -/
def stringsSplitDot (s : String) : List String :=
  stringsSplitDotAux s.data []

/-- Go error values as they flow through this package: a `googleapi.Error`
carrying a status code and message, a wrapping error (`errors.Wrap` /
`fmt.Errorf` with a wrap verb) holding context text and an inner error, a
bare error built from a message (`fmt.Errorf` without a wrap verb), and the
package's own `NoMetadataUpdatedError` sentinel. -/
inductive GoError where
  | googleapi (code : Nat) (message : String)
  | wrapped (msg : String) (inner : GoError)
  | plain (msg : String)
  | noMetadataUpdated
deriving DecidableEq, Repr

/-- `errors.As(err, &apiErr)` for `*googleapi.Error`: walks the wrap chain
and extracts the first googleapi error's code and message, if any. -/
def asGoogleAPIError : GoError → Option (Nat × String)
  | .googleapi c m => some (c, m)
  | .wrapped _ e => asGoogleAPIError e
  | .plain _ => none
  | .noMetadataUpdated => none

/-- `errors.As(err, &apiErr) && apiErr.Code == 404`, the not-found test used
by the metadata-fetch call sites. -/
def is404 (e : GoError) : Bool :=
  match asGoogleAPIError e with
  | some (c, _) => c == 404
  | none => false

/-- `bigquery.TimePartitioning`, restricted to the field consulted here. -/
structure TimePartitioning where
  field : String
deriving DecidableEq, Repr

/-- `bigquery.RangePartitioning`, restricted to the field consulted here. -/
structure RangePartitioning where
  field : String
deriving DecidableEq, Repr

/-- `bigquery.Clustering`. -/
structure Clustering where
  fields : List String
deriving DecidableEq, Repr

/-- `bigquery.PrimaryKey`. -/
structure PrimaryKey where
  columns : List String
deriving DecidableEq, Repr

/-- `bigquery.TableConstraints`; a nil `PrimaryKey` pointer is `none`. -/
structure TableConstraints where
  primaryKey : Option PrimaryKey
deriving DecidableEq, Repr

/-- One `bigquery.FieldSchema` entry of a table schema. -/
structure FieldSchema where
  name : String
  description : String
deriving DecidableEq, Repr

/-- `bigquery.TableMetadata`, restricted to the fields this package reads:
type string, partitioning and clustering descriptors, schema, constraints
and the etag version token. -/
structure TableMetadata where
  type : String
  timePartitioning : Option TimePartitioning
  rangePartitioning : Option RangePartitioning
  clustering : Option Clustering
  schema : List FieldSchema
  tableConstraints : Option TableConstraints
  etag : String
deriving DecidableEq, Repr

/-- Modelled from the spec: the sentinel materialization type "none"
(`pipeline.MaterializationTypeNone`; the `pipeline` package is outside this
tree). The spec calls it the sentinel "none" meaning "no opinion". -/
def MaterializationTypeNone : String := "none"

/-- `pipeline.Materialization`, restricted to the fields consulted here. -/
structure Materialization where
  type : String
  partitionBy : String
  clusterBy : List String
deriving DecidableEq, Repr

/-- One asset column: name, description and primary-key flag. -/
structure Column where
  name : String
  description : String
  primaryKey : Bool
deriving DecidableEq, Repr

/-- `pipeline.Asset`, restricted to the fields consulted here. -/
structure Asset where
  name : String
  description : String
  columns : List Column
  materialization : Materialization
deriving DecidableEq, Repr

/-- Modelled from the spec: `asset.ColumnNamesWithPrimaryKey()` (defined in
the `pipeline` package, outside this tree) lists the names of all asset
columns flagged as primary key, in order. -/
def Asset.ColumnNamesWithPrimaryKey (a : Asset) : List String :=
  (a.columns.filter (·.primaryKey)).map (·.name)

/-- `strings.EqualFold`, modelled as case-insensitive equality via
lower-casing both sides character by character. -/
def EqualFold (a b : String) : Bool :=
  a.data.map Char.toLower == b.data.map Char.toLower

/-- A resolved `*bigquery.Table` reference: project, dataset, table. -/
structure TableRef where
  project : String
  dataset : String
  table : String
deriving DecidableEq, Repr

/-- The malformed-name error text produced by `getTableRef` and
`BuildTableExistsQuery`. -/
def malformedTableNameError (tableName : String) : GoError :=
  .plain ("table name must be in dataset.table or project.dataset.table format, " ++ tableName ++ " given")

/-- `(*Client).getTableRef`: split the name on dots, reject any empty
component, then accept exactly the 2- and 3-segment forms; the 2-segment
form takes the configured project (`d.config.ProjectID`). -/
def getTableRef (projectID : String) (tableName : String) : Except GoError TableRef :=
  let tableComponents := stringsSplitDot tableName
  if tableComponents.any (· == "") then
    .error (malformedTableNameError tableName)
  else
    match tableComponents with
    | [d, t] => .ok ⟨projectID, d, t⟩
    | [p, d, t] => .ok ⟨p, d, t⟩
    | _ => .error (malformedTableNameError tableName)

/-- `IsSamePartitioning`. -/
def IsSamePartitioning (meta : TableMetadata) (asset : Asset) : Bool :=
  if asset.materialization.partitionBy != "" &&
      meta.timePartitioning.isNone && meta.rangePartitioning.isNone then
    false
  else if meta.timePartitioning.isNone && meta.rangePartitioning.isNone then
    true
  else
    (match meta.timePartitioning with
      | some tp => tp.field == asset.materialization.partitionBy
      | none => true)
    &&
    (match meta.rangePartitioning with
      | some rp => rp.field == asset.materialization.partitionBy
      | none => true)

/-- `IsSameClustering`. -/
def IsSameClustering (meta : TableMetadata) (asset : Asset) : Bool :=
  if asset.materialization.clusterBy.length > 0 &&
      (match meta.clustering with
        | none => true
        | some c => c.fields.length == 0) then
    false
  else
    match meta.clustering with
    | none => true
    | some c =>
      let bigQueryFields := c.fields
      let userFields := asset.materialization.clusterBy
      if bigQueryFields.length != userFields.length then
        false
      else
        bigQueryFields == userFields

/-- `(*Client).IsPartitioningOrClusteringMismatch`: gated on live time/range
partitioning or asset-declared partitioning/clustering, then a mismatch of
either sub-predicate. -/
def IsPartitioningOrClusteringMismatch (meta : TableMetadata) (asset : Asset) : Bool :=
  if meta.timePartitioning.isSome || meta.rangePartitioning.isSome ||
      asset.materialization.partitionBy != "" ||
      asset.materialization.clusterBy.length > 0 then
    if !IsSamePartitioning meta asset || !IsSameClustering meta asset then
      true
    else
      false
  else
    false

/-- `(*Client).IsMaterializationTypeMismatch`. -/
def IsMaterializationTypeMismatch (meta : TableMetadata) (asset : Asset) : Bool :=
  if asset.materialization.type == MaterializationTypeNone then
    false
  else
    !(EqualFold meta.type asset.materialization.type)

/-- `formatError`: non-googleapi errors pass through; a googleapi error in
the chain with code 404 or 400 becomes a bare error of its message; any
other googleapi error found in the chain is returned (as extracted). -/
def formatError (err : GoError) : GoError :=
  match asGoogleAPIError err with
  | none => err
  | some (c, m) =>
    if c == 404 || c == 400 then .plain m
    else .googleapi c m

/-- Oracle for `DropTableOnMismatch`'s network calls: the outcome of
`tableRef.Metadata(ctx)` and of `tableRef.Delete(ctx)` (`none` = success). -/
structure DropWorld where
  metadata : Except GoError TableMetadata
  deleteErr : Option GoError
deriving Repr

/-- Result of `DropTableOnMismatch`: the Go return value (`none` = nil
error) plus the number of delete calls issued. -/
structure DropResult where
  result : Option GoError
  deleteCalls : Nat
deriving DecidableEq, Repr

/-- `(*Client).DropTableOnMismatch`: resolve the name, fetch live metadata
(not-found means nothing to drop, success), and on a materialization-type
or partitioning/clustering mismatch issue one delete, wrapping a delete
failure. -/
def DropTableOnMismatch (projectID : String) (w : DropWorld)
    (tableName : String) (asset : Asset) : DropResult :=
  match getTableRef projectID tableName with
  | .error e => ⟨some e, 0⟩
  | .ok _ =>
    match w.metadata with
    | .error e =>
      if is404 e then ⟨none, 0⟩
      else ⟨some (.wrapped ("failed to fetch metadata for table " ++ tableName) e), 0⟩
    | .ok meta =>
      if IsMaterializationTypeMismatch meta asset || IsPartitioningOrClusteringMismatch meta asset then
        match w.deleteErr with
        | some e => ⟨some (.wrapped ("failed to delete table " ++ tableName) e), 1⟩
        | none => ⟨none, 1⟩
      else
        ⟨none, 0⟩

/-- Oracle for `CreateDataSetIfNotExist`'s network calls: the outcome of
`dataset.Metadata(ctx)` (`none` = dataset found) and of
`dataset.Create(ctx, ...)` (`none` = success). -/
structure DatasetWorld where
  metadataErr : Option GoError
  createErr : Option GoError
deriving DecidableEq, Repr

/-- Result of `CreateDataSetIfNotExist`: the Go return value, the dataset
existence cache after the call (`datasetNameCache`, modelled as the list of
keys stored), and the numbers of metadata probes and create calls issued. -/
structure DatasetResult where
  result : Option GoError
  cache : List String
  probes : Nat
  creates : Nat
deriving DecidableEq, Repr

/-- `(*Client).CreateDataSetIfNotExist`. The per-key mutex makes the two
cache loads a double-checked lock under concurrency; in this sequential
model both loads read the same cache, and the lock table is elided. The
cache is stored to only after a successful create call. -/
def CreateDataSetIfNotExist (projectID : String) (cache : List String)
    (w : DatasetWorld) (asset : Asset) : DatasetResult :=
  let tableName := asset.name
  let tableComponents := stringsSplitDot tableName
  let go : String → String → DatasetResult := fun proj datasetName =>
    let cacheKey := proj ++ "." ++ datasetName
    if cache.contains cacheKey then
      ⟨none, cache, 0, 0⟩
    else if cache.contains cacheKey then
      ⟨none, cache, 0, 0⟩
    else
      match w.metadataErr with
      | none => ⟨none, cache, 1, 0⟩
      | some e =>
        if is404 e then
          match w.createErr with
          | some ce =>
            ⟨some (.wrapped ("failed to create dataset " ++ datasetName) ce), cache, 1, 1⟩
          | none => ⟨none, cacheKey :: cache, 1, 1⟩
        else
          ⟨some (.wrapped ("failed to fetch metadata for table " ++ tableName) e), cache, 1, 0⟩
  match tableComponents with
  | [d, _] => go projectID d
  | [p, d, _] => go p d
  | _ => ⟨none, cache, 0, 0⟩

/-- `strings.TrimSpace` of the generated query is modelled by emitting the
trimmed text directly; `sq` is the single-quote character of the SQL string
literal. -/
def sq : String := String.singleton (Char.ofNat 39)

/-- `(*Client).BuildTableExistsQuery`: reject empty components and wrong
segment counts, then emit
`SELECT EXISTS (SELECT 1 FROM <project>.<dataset>.INFORMATION_SCHEMA.TABLES
WHERE table_name = <quoted table>)`. -/
def BuildTableExistsQuery (projectID : String) (tableName : String) : Except GoError String :=
  let tableComponents := stringsSplitDot tableName
  if tableComponents.any (· == "") then
    .error (malformedTableNameError tableName)
  else
    let build : String → String → String := fun datasetRef targetTable =>
      "SELECT EXISTS (SELECT 1 FROM " ++ datasetRef ++ " WHERE table_name = " ++
        sq ++ targetTable ++ sq ++ ")"
    match tableComponents with
    | [d, t] => .ok (build (projectID ++ "." ++ d ++ ".INFORMATION_SCHEMA.TABLES") t)
    | [p, d, t] => .ok (build (p ++ "." ++ d ++ ".INFORMATION_SCHEMA.TABLES") t)
    | _ => .error (malformedTableNameError tableName)

/-- `bigquery.TableMetadataToUpdate`, restricted to the fields this package
sets; `none` means the field is left unset and not part of the update. -/
structure TableMetadataToUpdate where
  schema : Option (List FieldSchema)
  description : Option String
  tableConstraints : Option TableConstraints
deriving DecidableEq, Repr

/-- Oracle for `UpdateTableMetadataIfNotExist`'s network calls: the outcome
of `tableRef.Metadata(ctx)` and of `tableRef.Update(ctx, ...)` (`none` =
success). -/
structure UpdateWorld where
  metadata : Except GoError TableMetadata
  updateErr : Option GoError
deriving Repr

/-- Result of `UpdateTableMetadataIfNotExist`: the Go return value, the
number of network calls issued (metadata fetch plus update), and the update
request submitted to `tableRef.Update`, if that call was made. -/
structure UpdateResult where
  result : Option GoError
  networkCalls : Nat
  submitted : Option TableMetadataToUpdate
deriving DecidableEq, Repr

/-- The `colsByName` map lookup: Go map insertion overwrites, so for a
duplicated column name the last occurrence wins. -/
def findCol (cols : List Column) (n : String) : Option Column :=
  cols.foldl (fun acc c => if c.name == n then some c else acc) none

/-- The `anyColumnHasDescription` flag computed in the first loop of
`UpdateTableMetadataIfNotExist`. -/
def anyColumnHasDescription (a : Asset) : Bool :=
  a.columns.any (·.description != "")

/-- `(*Client).UpdateTableMetadataIfNotExist`: short-circuit with
`NoMetadataUpdatedError` when the asset carries no description at all;
otherwise resolve the name, fetch metadata (not-found is success),
overwrite matching schema-field descriptions, and submit an update holding
the changed schema, the non-empty description, and a primary-key constraint
whenever the asset declares primary-key columns. -/
def UpdateTableMetadataIfNotExist (projectID : String) (w : UpdateWorld)
    (asset : Asset) : UpdateResult :=
  if asset.description == "" &&
      (asset.columns.length == 0 || !anyColumnHasDescription asset) then
    ⟨some .noMetadataUpdated, 0, none⟩
  else
    match getTableRef projectID asset.name with
    | .error e => ⟨some e, 0, none⟩
    | .ok _ =>
      match w.metadata with
      | .error e =>
        if is404 e then ⟨none, 1, none⟩
        else ⟨some e, 1, none⟩
      | .ok meta =>
        let schema := meta.schema.map (fun f =>
          match findCol asset.columns f.name with
          | some col => { f with description := col.description }
          | none => f)
        let colsChanged := meta.schema.any (fun f => (findCol asset.columns f.name).isSome)
        let update0 : TableMetadataToUpdate := ⟨none, none, none⟩
        let update1 := if colsChanged then { update0 with schema := some schema } else update0
        let update2 :=
          if asset.description != "" then { update1 with description := some asset.description }
          else update1
        let primaryKeys := asset.ColumnNamesWithPrimaryKey
        let update3 :=
          if primaryKeys.length > 0 then
            { update2 with tableConstraints := some ⟨some ⟨primaryKeys⟩⟩ }
          else update2
        match w.updateErr with
        | some e => ⟨some (.wrapped "failed to update table metadata" e), 2, some update3⟩
        | none => ⟨none, 2, some update3⟩

/-! ## Theorems -/

/-- C4: `getTableRef` resolution is deterministic (it is a function) and
succeeds exactly on 2 or 3 non-empty dot-separated segments: the 2-segment
form takes the configured home project, the 3-segment form spells out the
project; 1 segment, 4 or more segments, or any empty segment yields the
malformed-name error. -/
theorem getTableRef_resolution (projectID tableName : String) :
    (∀ d t, stringsSplitDot tableName = [d, t] → d ≠ "" → t ≠ "" →
      getTableRef projectID tableName = .ok ⟨projectID, d, t⟩)
  ∧ (∀ p d t, stringsSplitDot tableName = [p, d, t] → p ≠ "" → d ≠ "" → t ≠ "" →
      getTableRef projectID tableName = .ok ⟨p, d, t⟩)
  ∧ ((stringsSplitDot tableName).length ≠ 2 → (stringsSplitDot tableName).length ≠ 3 →
      getTableRef projectID tableName = .error (malformedTableNameError tableName))
  ∧ ("" ∈ stringsSplitDot tableName →
      getTableRef projectID tableName = .error (malformedTableNameError tableName)) := by
  refine ⟨?_, ?_, ?_, ?_⟩
  · intro d t h hd ht
    unfold getTableRef
    rw [h]
    simp [hd, ht]
  · intro p d t h hp hd ht
    unfold getTableRef
    rw [h]
    simp [hp, hd, ht]
  · intro h2 h3
    unfold getTableRef
    rcases hL : stringsSplitDot tableName with _ | ⟨a, _ | ⟨b, _ | ⟨c, _ | _⟩⟩⟩ <;> simp_all
  · intro hmem
    have : (stringsSplitDot tableName).any (· == "") = true :=
      List.any_eq_true.mpr ⟨"", hmem, by simp⟩
    unfold getTableRef
    simp [this]

/-- C5: `IsSamePartitioning` reports mismatch when the asset declares a
partition column but the live table has neither time- nor
range-partitioning; match when both sides are unpartitioned; and when
time- (resp. range-) partitioning exists, match only if its field equals
the asset's partition column, with both checked when both exist. -/
theorem IsSamePartitioning_spec (meta : TableMetadata) (asset : Asset) :
    (asset.materialization.partitionBy ≠ "" → meta.timePartitioning = none →
      meta.rangePartitioning = none → IsSamePartitioning meta asset = false)
  ∧ (meta.timePartitioning = none → meta.rangePartitioning = none →
      asset.materialization.partitionBy = "" → IsSamePartitioning meta asset = true)
  ∧ (∀ tp, meta.timePartitioning = some tp → IsSamePartitioning meta asset = true →
      tp.field = asset.materialization.partitionBy)
  ∧ (∀ rp, meta.rangePartitioning = some rp → IsSamePartitioning meta asset = true →
      rp.field = asset.materialization.partitionBy)
  ∧ (∀ tp rp, meta.timePartitioning = some tp → meta.rangePartitioning = some rp →
      (IsSamePartitioning meta asset = true ↔
        (tp.field = asset.materialization.partitionBy ∧
          rp.field = asset.materialization.partitionBy))) := by
  refine ⟨?_, ?_, ?_, ?_, ?_⟩
  · intro hpb htp hrp
    simp [IsSamePartitioning, htp, hrp, hpb]
  · intro htp hrp hpb
    simp [IsSamePartitioning, htp, hrp, hpb]
  · intro tp htp hres
    rcases hrp : meta.rangePartitioning with _ | rp <;>
      simp [IsSamePartitioning, htp, hrp] at hres <;> simp_all
  · intro rp hrp hres
    rcases htp : meta.timePartitioning with _ | tp <;>
      simp [IsSamePartitioning, htp, hrp] at hres <;> simp_all
  · intro tp rp htp hrp
    simp [IsSamePartitioning, htp, hrp]

/-- C4 witness: concrete instances of both accepted forms and a rejected
empty-segment form. -/
theorem getTableRef_resolution_witness :
    getTableRef "home" "ds.tbl" = .ok ⟨"home", "ds", "tbl"⟩ ∧
    getTableRef "home" "p.ds.tbl" = .ok ⟨"p", "ds", "tbl"⟩ ∧
    getTableRef "home" ".ds.tbl" = .error (malformedTableNameError ".ds.tbl") :=
  ⟨(getTableRef_resolution "home" "ds.tbl").1 "ds" "tbl" (by decide) (by decide) (by decide),
   (getTableRef_resolution "home" "p.ds.tbl").2.1 "p" "ds" "tbl" (by decide) (by decide)
     (by decide) (by decide),
   (getTableRef_resolution "home" ".ds.tbl").2.2.2 (by decide)⟩

/-- C5 witness: a live table carrying both time- and range-partitioning on
the asset's partition column matches. -/
theorem IsSamePartitioning_spec_witness :
    IsSamePartitioning ⟨"TABLE", some ⟨"dt"⟩, some ⟨"dt"⟩, none, [], none, "e"⟩
      ⟨"ds.t", "", [], ⟨"table", "dt", []⟩⟩ = true :=
  ((IsSamePartitioning_spec ⟨"TABLE", some ⟨"dt"⟩, some ⟨"dt"⟩, none, [], none, "e"⟩
      ⟨"ds.t", "", [], ⟨"table", "dt", []⟩⟩).2.2.2.2 ⟨"dt"⟩ ⟨"dt"⟩ rfl rfl).mpr ⟨rfl, rfl⟩

/-- C6: `IsSameClustering` reports mismatch when the asset declares cluster
columns but live clustering is absent or empty; match when live clustering
is absent and the asset declares none; otherwise the two field lists must
agree in length and position by position, so the same elements in a
different order mismatch. -/
theorem IsSameClustering_spec (meta : TableMetadata) (asset : Asset) :
    (asset.materialization.clusterBy ≠ [] → meta.clustering = none →
      IsSameClustering meta asset = false)
  ∧ (∀ c, asset.materialization.clusterBy ≠ [] → meta.clustering = some c → c.fields = [] →
      IsSameClustering meta asset = false)
  ∧ (meta.clustering = none → asset.materialization.clusterBy = [] →
      IsSameClustering meta asset = true)
  ∧ (∀ c, meta.clustering = some c →
      (IsSameClustering meta asset = true ↔ c.fields = asset.materialization.clusterBy))
  ∧ (IsSameClustering ⟨"TABLE", none, none, some ⟨["a", "b"]⟩, [], none, "e"⟩
      ⟨"ds.t", "", [], ⟨"table", "", ["b", "a"]⟩⟩ = false) := by
  refine ⟨?_, ?_, ?_, ?_, by decide⟩
  · intro hcb hc
    simp_all [IsSameClustering, hc, List.length_pos]
  · intro c hcb hc hf
    simp_all [IsSameClustering, hc, hf, List.length_pos]
  · intro hc hcb
    simp [IsSameClustering, hc, hcb]
  · intro c hc
    by_cases hcb : asset.materialization.clusterBy = [] <;>
      by_cases hf : c.fields = [] <;>
        simp_all [IsSameClustering, hc, List.length_pos]

/-- C6 witness: equal lists in the same order match. -/
theorem IsSameClustering_spec_witness :
    IsSameClustering ⟨"TABLE", none, none, some ⟨["a", "b"]⟩, [], none, "e"⟩
      ⟨"ds.t", "", [], ⟨"table", "", ["a", "b"]⟩⟩ = true :=
  ((IsSameClustering_spec ⟨"TABLE", none, none, some ⟨["a", "b"]⟩, [], none, "e"⟩
      ⟨"ds.t", "", [], ⟨"table", "", ["a", "b"]⟩⟩).2.2.2.1 ⟨["a", "b"]⟩ rfl).mpr rfl

/-- C2 counterexample: a live table whose metadata carries clustering
fields while the asset declares no partitioning or clustering is reported
as matching (not a mismatch), because the gate of
`IsPartitioningOrClusteringMismatch` never looks at live clustering — even
though `IsSameClustering` does see the drift there. -/
theorem IsPartitioningOrClusteringMismatch_counterexample :
    IsPartitioningOrClusteringMismatch ⟨"TABLE", none, none, some ⟨["a"]⟩, [], none, "e"⟩
        ⟨"ds.t", "", [], ⟨"none", "", []⟩⟩ = false ∧
    IsSameClustering ⟨"TABLE", none, none, some ⟨["a"]⟩, [], none, "e"⟩
        ⟨"ds.t", "", [], ⟨"none", "", []⟩⟩ = false := by decide

/-- C2 (amended): the aggregate drift check is evaluated exactly when the
live table has time- or range-partitioning or the asset declares a
partition column or cluster columns; live clustering alone does not
trigger it, so a live table carrying only clustering fields against an
asset declaring none is reported as matching. -/
theorem IsPartitioningOrClusteringMismatch_gate (meta : TableMetadata) (asset : Asset) :
    ((meta.timePartitioning = none ∧ meta.rangePartitioning = none ∧
        asset.materialization.partitionBy = "" ∧ asset.materialization.clusterBy = []) →
      IsPartitioningOrClusteringMismatch meta asset = false)
  ∧ ((meta.timePartitioning ≠ none ∨ meta.rangePartitioning ≠ none ∨
        asset.materialization.partitionBy ≠ "" ∨ asset.materialization.clusterBy ≠ []) →
      IsPartitioningOrClusteringMismatch meta asset =
        (!IsSamePartitioning meta asset || !IsSameClustering meta asset)) := by
  constructor
  · rintro ⟨h1, h2, h3, h4⟩
    simp [IsPartitioningOrClusteringMismatch, h1, h2, h3, h4]
  · intro h
    have hgate : (meta.timePartitioning.isSome || meta.rangePartitioning.isSome ||
        asset.materialization.partitionBy != "" ||
        decide (asset.materialization.clusterBy.length > 0)) = true := by
      rcases h with h | h | h | h <;> simp_all [Option.isSome_iff_ne_none, List.length_pos]
    unfold IsPartitioningOrClusteringMismatch
    simp only [hgate]
    split <;> simp_all

/-- C2 witness: a live table with time-partitioning and an asset declaring
nothing triggers the check, which reports the drift. -/
theorem IsPartitioningOrClusteringMismatch_gate_witness :
    IsPartitioningOrClusteringMismatch ⟨"TABLE", some ⟨"dt"⟩, none, none, [], none, "e"⟩
        ⟨"ds.t", "", [], ⟨"none", "", []⟩⟩ =
      (!IsSamePartitioning ⟨"TABLE", some ⟨"dt"⟩, none, none, [], none, "e"⟩
          ⟨"ds.t", "", [], ⟨"none", "", []⟩⟩ ||
        !IsSameClustering ⟨"TABLE", some ⟨"dt"⟩, none, none, [], none, "e"⟩
          ⟨"ds.t", "", [], ⟨"none", "", []⟩⟩) :=
  (IsPartitioningOrClusteringMismatch_gate ⟨"TABLE", some ⟨"dt"⟩, none, none, [], none, "e"⟩
      ⟨"ds.t", "", [], ⟨"none", "", []⟩⟩).2 (Or.inl (by decide))

/-- C9 counterexample: a wrapped API error with status 500 is neither a
404/400 case nor returned unchanged — `formatError` returns the extracted
API error, dropping the wrapper, so the returned error is not the input
error. -/
theorem formatError_counterexample :
    formatError (.wrapped "run query" (.googleapi 500 "boom")) = .googleapi 500 "boom" ∧
    formatError (.wrapped "run query" (.googleapi 500 "boom")) ≠
      .wrapped "run query" (.googleapi 500 "boom") := by decide

/-- C9 (amended): an error whose chain carries an API error with status 404
or 400 is reduced to a bare error holding only its message text; an error
whose chain carries an API error with any other status is reduced to that
API error (dropping any wrapping, so it equals the input only when the
input was the unwrapped API error); errors carrying no API error pass
through unchanged. -/
theorem formatError_spec (e : GoError) :
    (asGoogleAPIError e = none → formatError e = e)
  ∧ (∀ c m, asGoogleAPIError e = some (c, m) → (c = 404 ∨ c = 400) →
      formatError e = .plain m)
  ∧ (∀ c m, asGoogleAPIError e = some (c, m) → c ≠ 404 → c ≠ 400 →
      formatError e = .googleapi c m) := by
  refine ⟨?_, ?_, ?_⟩
  · intro h
    simp [formatError, h]
  · intro c m h hc
    rcases hc with hc | hc <;> simp [formatError, h, hc]
  · intro c m h hc1 hc2
    simp [formatError, h, hc1, hc2]

/-- C9 witness: concrete instances of all three branches. -/
theorem formatError_spec_witness :
    formatError (.plain "x") = .plain "x" ∧
    formatError (.googleapi 404 "nf") = .plain "nf" ∧
    formatError (.googleapi 403 "denied") = .googleapi 403 "denied" :=
  ⟨(formatError_spec (.plain "x")).1 rfl,
   (formatError_spec (.googleapi 404 "nf")).2.1 404 "nf" rfl (Or.inl rfl),
   (formatError_spec (.googleapi 403 "denied")).2.2 403 "denied" rfl (by decide) (by decide)⟩

/-- C1: for a resolvable table name, `DropTableOnMismatch` returns success
with no delete when the metadata fetch reports not-found; on a
materialization-type or partitioning/clustering mismatch it issues exactly
one delete and succeeds exactly when the delete succeeds (a delete failure
is returned as an error); with no mismatch it returns success with no
delete. -/
theorem DropTableOnMismatch_spec (projectID tableName : String) (asset : Asset)
    (w : DropWorld) (hok : ∃ r, getTableRef projectID tableName = .ok r) :
    (∀ e, w.metadata = .error e → is404 e = true →
      DropTableOnMismatch projectID w tableName asset = ⟨none, 0⟩)
  ∧ (∀ meta, w.metadata = .ok meta →
      (IsMaterializationTypeMismatch meta asset ||
        IsPartitioningOrClusteringMismatch meta asset) = true →
      (DropTableOnMismatch projectID w tableName asset).deleteCalls = 1 ∧
      ((DropTableOnMismatch projectID w tableName asset).result = none ↔
        w.deleteErr = none))
  ∧ (∀ meta, w.metadata = .ok meta →
      (IsMaterializationTypeMismatch meta asset ||
        IsPartitioningOrClusteringMismatch meta asset) = false →
      DropTableOnMismatch projectID w tableName asset = ⟨none, 0⟩) := by
  obtain ⟨r, hr⟩ := hok
  refine ⟨?_, ?_, ?_⟩
  · intro e he h404
    simp [DropTableOnMismatch, hr, he, h404]
  · intro meta hm hmis
    rcases hd : w.deleteErr with _ | e <;>
      simp [DropTableOnMismatch, hr, hm, hmis, hd]
  · intro meta hm hmis
    simp [DropTableOnMismatch, hr, hm, hmis]

/-- C1 witness: a view where a plain table is declared is dropped once with
success; a not-found table yields success with no delete. -/
theorem DropTableOnMismatch_spec_witness :
    ((DropTableOnMismatch "proj"
        ⟨.ok ⟨"VIEW", none, none, none, [], none, "e"⟩, none⟩ "ds.t"
        ⟨"ds.t", "", [], ⟨"table", "", []⟩⟩).deleteCalls = 1 ∧
      ((DropTableOnMismatch "proj"
        ⟨.ok ⟨"VIEW", none, none, none, [], none, "e"⟩, none⟩ "ds.t"
        ⟨"ds.t", "", [], ⟨"table", "", []⟩⟩).result = none ↔
        (⟨.ok ⟨"VIEW", none, none, none, [], none, "e"⟩, none⟩ : DropWorld).deleteErr = none)) ∧
    DropTableOnMismatch "proj" ⟨.error (.googleapi 404 "nf"), none⟩ "ds.t"
        ⟨"ds.t", "", [], ⟨"table", "", []⟩⟩ = ⟨none, 0⟩ :=
  ⟨(DropTableOnMismatch_spec "proj" "ds.t" ⟨"ds.t", "", [], ⟨"table", "", []⟩⟩
      ⟨.ok ⟨"VIEW", none, none, none, [], none, "e"⟩, none⟩
      ⟨⟨"proj", "ds", "t"⟩, by decide⟩).2.1 ⟨"VIEW", none, none, none, [], none, "e"⟩
      rfl (by decide),
   (DropTableOnMismatch_spec "proj" "ds.t" ⟨"ds.t", "", [], ⟨"table", "", []⟩⟩
      ⟨.error (.googleapi 404 "nf"), none⟩
      ⟨⟨"proj", "ds", "t"⟩, by decide⟩).1 (.googleapi 404 "nf") rfl (by decide)⟩

/-- C3 counterexample: when the probe finds the dataset already exists,
the cache is left unmarked, so a second call for the same key issues a
second probe round trip — two network calls over the process lifetime for
one key, and no fast path. -/
theorem CreateDataSetIfNotExist_counterexample :
    CreateDataSetIfNotExist "proj" [] ⟨none, none⟩ ⟨"ds1.t1", "", [], ⟨"none", "", []⟩⟩ =
      ⟨none, [], 1, 0⟩ ∧
    (CreateDataSetIfNotExist "proj"
      (CreateDataSetIfNotExist "proj" [] ⟨none, none⟩
        ⟨"ds1.t1", "", [], ⟨"none", "", []⟩⟩).cache
      ⟨none, none⟩ ⟨"ds1.t1", "", [], ⟨"none", "", []⟩⟩).probes = 1 := by decide

/-- C3 (amended): a cached key returns on the fast path with no network
call; when the probe finds the dataset already exists the call returns
success but leaves the cache unchanged (so the at-most-one-round-trip
bound only holds for cached keys); the cache entry is marked true only
after a successful create following a not-found probe. -/
theorem CreateDataSetIfNotExist_cache_spec (projectID : String) (cache : List String)
    (w : DatasetWorld) (asset : Asset) (proj d : String)
    (hseg : (∃ t, stringsSplitDot asset.name = [d, t] ∧ proj = projectID) ∨
      (∃ t, stringsSplitDot asset.name = [proj, d, t])) :
    ((proj ++ "." ++ d) ∈ cache →
      CreateDataSetIfNotExist projectID cache w asset = ⟨none, cache, 0, 0⟩)
  ∧ ((proj ++ "." ++ d) ∉ cache → w.metadataErr = none →
      CreateDataSetIfNotExist projectID cache w asset = ⟨none, cache, 1, 0⟩)
  ∧ ((proj ++ "." ++ d) ∉ cache →
      ∀ e, w.metadataErr = some e → is404 e = true → w.createErr = none →
      CreateDataSetIfNotExist projectID cache w asset =
        ⟨none, (proj ++ "." ++ d) :: cache, 1, 1⟩) := by
  refine ⟨?_, ?_, ?_⟩
  · intro hcached
    rcases hseg with ⟨t, hs, hp⟩ | ⟨t, hs⟩ <;>
      subst_vars <;> simp [CreateDataSetIfNotExist, hs, hcached]
  · intro hmiss hfound
    rcases hseg with ⟨t, hs, hp⟩ | ⟨t, hs⟩ <;>
      subst_vars <;> simp [CreateDataSetIfNotExist, hs, hmiss, hfound]
  · intro hmiss e he h404 hcreate
    rcases hseg with ⟨t, hs, hp⟩ | ⟨t, hs⟩ <;>
      subst_vars <;> simp [CreateDataSetIfNotExist, hs, hmiss, he, h404, hcreate]

/-- C3 witness: a not-found probe followed by a successful create stores
the key; a cached key short-circuits with no probe. -/
theorem CreateDataSetIfNotExist_cache_spec_witness :
    CreateDataSetIfNotExist "proj" [] ⟨some (.googleapi 404 "nf"), none⟩
        ⟨"ds1.t1", "", [], ⟨"none", "", []⟩⟩ = ⟨none, ["proj.ds1"], 1, 1⟩ ∧
    CreateDataSetIfNotExist "proj" ["proj.ds1"] ⟨none, none⟩
        ⟨"ds1.t1", "", [], ⟨"none", "", []⟩⟩ = ⟨none, ["proj.ds1"], 0, 0⟩ :=
  ⟨(CreateDataSetIfNotExist_cache_spec "proj" [] ⟨some (.googleapi 404 "nf"), none⟩
      ⟨"ds1.t1", "", [], ⟨"none", "", []⟩⟩ "proj" "ds1"
      (Or.inl ⟨"t1", by decide, rfl⟩)).2.2 (by simp) (.googleapi 404 "nf") rfl
      (by decide) rfl,
   (CreateDataSetIfNotExist_cache_spec "proj" ["proj.ds1"] ⟨none, none⟩
      ⟨"ds1.t1", "", [], ⟨"none", "", []⟩⟩ "proj" "ds1"
      (Or.inl ⟨"t1", by decide, rfl⟩)).1 (by simp)⟩

/-- C10: `CreateDataSetIfNotExist` performs no non-empty validation on name
segments: any asset name with 2 or 3 dot-separated components — empty ones
included — computes a cache key and issues the probe, and never yields the
malformed-name error; `getTableRef` and `BuildTableExistsQuery` reject the
same names whenever any component is empty. -/
theorem CreateDataSetIfNotExist_noValidation (projectID : String) (w : DatasetWorld)
    (asset : Asset) :
    (∀ d t, stringsSplitDot asset.name = [d, t] →
      (CreateDataSetIfNotExist projectID [] w asset).probes = 1 ∧
      (CreateDataSetIfNotExist projectID [] w asset).result ≠
        some (malformedTableNameError asset.name))
  ∧ (∀ p d t, stringsSplitDot asset.name = [p, d, t] →
      (CreateDataSetIfNotExist projectID [] w asset).probes = 1 ∧
      (CreateDataSetIfNotExist projectID [] w asset).result ≠
        some (malformedTableNameError asset.name))
  ∧ ((stringsSplitDot asset.name).any (· == "") = true →
      getTableRef projectID asset.name = .error (malformedTableNameError asset.name) ∧
      BuildTableExistsQuery projectID asset.name =
        .error (malformedTableNameError asset.name)) := by
  refine ⟨?_, ?_, ?_⟩
  · intro d t hs
    rcases hm : w.metadataErr with _ | e
    · simp [CreateDataSetIfNotExist, hs, hm, malformedTableNameError]
    · rcases h4 : is404 e with _ | _ <;> rcases hc : w.createErr with _ | ce <;>
        simp [CreateDataSetIfNotExist, hs, hm, h4, hc, malformedTableNameError]
  · intro p d t hs
    rcases hm : w.metadataErr with _ | e
    · simp [CreateDataSetIfNotExist, hs, hm, malformedTableNameError]
    · rcases h4 : is404 e with _ | _ <;> rcases hc : w.createErr with _ | ce <;>
        simp [CreateDataSetIfNotExist, hs, hm, h4, hc, malformedTableNameError]
  · intro hany
    constructor
    · simp [getTableRef, hany]
    · simp [BuildTableExistsQuery, hany]

/-- C10 witness: the name ".dataset.table" has an empty project component,
yet the provisioner probes the warehouse for it, while `getTableRef` and
`BuildTableExistsQuery` reject it. -/
theorem CreateDataSetIfNotExist_noValidation_witness :
    ((CreateDataSetIfNotExist "proj" [] ⟨none, none⟩
        ⟨".dataset.table", "", [], ⟨"none", "", []⟩⟩).probes = 1 ∧
      (CreateDataSetIfNotExist "proj" [] ⟨none, none⟩
        ⟨".dataset.table", "", [], ⟨"none", "", []⟩⟩).result ≠
        some (malformedTableNameError ".dataset.table")) ∧
    (getTableRef "proj" ".dataset.table" =
        .error (malformedTableNameError ".dataset.table") ∧
      BuildTableExistsQuery "proj" ".dataset.table" =
        .error (malformedTableNameError ".dataset.table")) :=
  ⟨(CreateDataSetIfNotExist_noValidation "proj" ⟨none, none⟩
      ⟨".dataset.table", "", [], ⟨"none", "", []⟩⟩).2.1 "" "dataset" "table" (by decide),
   (CreateDataSetIfNotExist_noValidation "proj" ⟨none, none⟩
      ⟨".dataset.table", "", [], ⟨"none", "", []⟩⟩).2.2 (by decide)⟩

/-- Every error `getTableRef` produces is the malformed-name error. -/
theorem getTableRef_error_eq (projectID tableName : String) (e : GoError)
    (h : getTableRef projectID tableName = .error e) :
    e = malformedTableNameError tableName := by
  unfold getTableRef at h
  by_cases hany : (stringsSplitDot tableName).any (· == "") = true
  · simp [hany] at h
    exact h.symm
  · simp only [hany, Bool.false_eq_true, if_false] at h
    rcases hL : stringsSplitDot tableName with _ | ⟨a, _ | ⟨b, _ | ⟨c, _ | _⟩⟩⟩ <;>
      rw [hL] at h <;> simp_all

/-- On any path past the empty-metadata short circuit, the result of
`UpdateTableMetadataIfNotExist` is never the `NoMetadataUpdatedError`
sentinel, provided the warehouse itself never produces that sentinel. -/
theorem UpdateTableMetadataIfNotExist_result_ne (projectID : String) (w : UpdateWorld)
    (asset : Asset) (hw : ∀ e, w.metadata = .error e → e ≠ .noMetadataUpdated)
    (hcond : (asset.description == "" &&
      (asset.columns.length == 0 || !anyColumnHasDescription asset)) = false) :
    (UpdateTableMetadataIfNotExist projectID w asset).result ≠ some .noMetadataUpdated := by
  unfold UpdateTableMetadataIfNotExist
  simp only [hcond, Bool.false_eq_true, if_false]
  rcases hr : getTableRef projectID asset.name with e | r
  · have := getTableRef_error_eq projectID asset.name e hr
    simp [hr, this, malformedTableNameError]
  · rcases hm : w.metadata with e | meta
    · by_cases h4 : is404 e = true
      · simp [hr, hm, h4]
      · simp only [hr, hm, h4, Bool.false_eq_true, if_false, ne_eq, Option.some.injEq]
        exact hw e hm
    · rcases hu : w.updateErr with _ | e <;> simp [hr, hm, hu]

/-- C7: `UpdateTableMetadataIfNotExist` returns `NoMetadataUpdatedError`
exactly when the asset's description is empty and no column carries a
non-empty description, and in that case it returns before any network
call, with nothing submitted. -/
theorem UpdateTableMetadataIfNotExist_noMetadata (projectID : String) (w : UpdateWorld)
    (asset : Asset) (hw : ∀ e, w.metadata = .error e → e ≠ .noMetadataUpdated) :
    ((UpdateTableMetadataIfNotExist projectID w asset).result = some .noMetadataUpdated ↔
      (asset.description = "" ∧ anyColumnHasDescription asset = false))
  ∧ (asset.description = "" → anyColumnHasDescription asset = false →
      UpdateTableMetadataIfNotExist projectID w asset = ⟨some .noMetadataUpdated, 0, none⟩) := by
  have hshort : ∀ (hd : asset.description = "") (ha : anyColumnHasDescription asset = false),
      UpdateTableMetadataIfNotExist projectID w asset = ⟨some .noMetadataUpdated, 0, none⟩ := by
    intro hd ha
    unfold UpdateTableMetadataIfNotExist
    simp [hd, ha]
  refine ⟨⟨?_, fun ⟨hd, ha⟩ => by rw [hshort hd ha]⟩, hshort⟩
  intro hres
  by_cases hcond : (asset.description == "" &&
      (asset.columns.length == 0 || !anyColumnHasDescription asset)) = true
  · rcases Bool.and_eq_true_iff.mp hcond with ⟨hd, hrest⟩
    have hd : asset.description = "" := by simpa using hd
    refine ⟨hd, ?_⟩
    rcases Bool.or_eq_true_iff.mp hrest with hlen | hany
    · have : asset.columns = [] := by simpa using hlen
      simp [anyColumnHasDescription, this]
    · simpa using hany
  · exact absurd hres
      (UpdateTableMetadataIfNotExist_result_ne projectID w asset hw
        (Bool.not_eq_true _ ▸ hcond))

/-- C7 witness: an asset with empty description and no described columns
short-circuits with the sentinel and zero network calls; an asset with a
description does not produce the sentinel. -/
theorem UpdateTableMetadataIfNotExist_noMetadata_witness :
    UpdateTableMetadataIfNotExist "proj"
        ⟨.ok ⟨"TABLE", none, none, none, [], none, "e"⟩, none⟩
        ⟨"ds.t", "", [⟨"id", "", false⟩], ⟨"none", "", []⟩⟩ =
      ⟨some .noMetadataUpdated, 0, none⟩ ∧
    ¬ (UpdateTableMetadataIfNotExist "proj"
        ⟨.ok ⟨"TABLE", none, none, none, [], none, "e"⟩, none⟩
        ⟨"ds.t", "d", [], ⟨"none", "", []⟩⟩).result = some .noMetadataUpdated :=
  ⟨(UpdateTableMetadataIfNotExist_noMetadata "proj"
      ⟨.ok ⟨"TABLE", none, none, none, [], none, "e"⟩, none⟩
      ⟨"ds.t", "", [⟨"id", "", false⟩], ⟨"none", "", []⟩⟩
      (fun e h => by simp at h)).2 rfl (by decide),
   fun h => by
    have := ((UpdateTableMetadataIfNotExist_noMetadata "proj"
      ⟨.ok ⟨"TABLE", none, none, none, [], none, "e"⟩, none⟩
      ⟨"ds.t", "d", [], ⟨"none", "", []⟩⟩
      (fun e h => by simp at h)).1.mp h).1
    simp at this⟩

/-- C8 counterexample: the asset's declared primary key (`["id"]`) already
equals the live table's constraint, yet the submitted update still carries
a primary-key constraint — the code never consults the live constraint. -/
theorem UpdateTableMetadataIfNotExist_primaryKey_counterexample :
    (⟨"TABLE", none, none, none, [], some ⟨some ⟨["id"]⟩⟩, "e"⟩ :
        TableMetadata).tableConstraints = some ⟨some ⟨["id"]⟩⟩ ∧
    (UpdateTableMetadataIfNotExist "proj"
        ⟨.ok ⟨"TABLE", none, none, none, [], some ⟨some ⟨["id"]⟩⟩, "e"⟩, none⟩
        ⟨"ds.t", "desc", [⟨"id", "", true⟩], ⟨"none", "", []⟩⟩).submitted =
      some ⟨none, some "desc", some ⟨some ⟨["id"]⟩⟩⟩ := by decide

/-- C8 (amended): whenever an update is submitted, it carries a
primary-key constraint exactly when the asset declares at least one
primary-key column, independent of the live table's existing constraint. -/
theorem UpdateTableMetadataIfNotExist_primaryKey (projectID : String) (w : UpdateWorld)
    (asset : Asset) :
    ∀ u, (UpdateTableMetadataIfNotExist projectID w asset).submitted = some u →
      u.tableConstraints =
        if asset.ColumnNamesWithPrimaryKey.length > 0 then
          some ⟨some ⟨asset.ColumnNamesWithPrimaryKey⟩⟩
        else none := by
  intro u hu
  unfold UpdateTableMetadataIfNotExist at hu
  by_cases hcond : (asset.description == "" &&
      (asset.columns.length == 0 || !anyColumnHasDescription asset)) = true
  · simp [hcond] at hu
  · simp only [Bool.not_eq_true] at hcond
    simp only [hcond, Bool.false_eq_true, if_false] at hu
    rcases hr : getTableRef projectID asset.name with e | r
    · simp [hr] at hu
    · rw [hr] at hu
      rcases hm : w.metadata with e | meta
      · rw [hm] at hu
        by_cases h4 : is404 e = true <;> simp [h4] at hu
      · rw [hm] at hu
        rcases hv : w.updateErr with _ | e <;> rw [hv] at hu <;>
          simp only [Option.some.injEq] at hu <;>
          subst hu <;>
          by_cases hpk : asset.ColumnNamesWithPrimaryKey.length > 0 <;>
            simp [hpk] <;> split <;> split <;> rfl

/-- C8 witness: an asset with one primary-key column yields an update
carrying that key even though the live table already has it. -/
theorem UpdateTableMetadataIfNotExist_primaryKey_witness :
    (⟨none, some "desc", some ⟨some ⟨["id"]⟩⟩⟩ : TableMetadataToUpdate).tableConstraints =
      if (⟨"ds.t", "desc", [⟨"id", "", true⟩], ⟨"none", "", []⟩⟩ :
          Asset).ColumnNamesWithPrimaryKey.length > 0 then
        some ⟨some ⟨(⟨"ds.t", "desc", [⟨"id", "", true⟩], ⟨"none", "", []⟩⟩ :
          Asset).ColumnNamesWithPrimaryKey⟩⟩
      else none :=
  UpdateTableMetadataIfNotExist_primaryKey "proj"
    ⟨.ok ⟨"TABLE", none, none, none, [], some ⟨some ⟨["id"]⟩⟩, "e"⟩, none⟩
    ⟨"ds.t", "desc", [⟨"id", "", true⟩], ⟨"none", "", []⟩⟩
    ⟨none, some "desc", some ⟨some ⟨["id"]⟩⟩⟩ (by decide)

end Bruin
